import Mathlib

/-!
A shallow embedding of the coding-agent reflection pipeline (src/agent.py) and
its metrics collector (src/metrics/collector.py), together with theorems about
the stage control flow, the returned three-tuple, the layer-selection policy,
memory gathering, and the collector's finalize/summary behaviour.

Conventions of the embedding:
* Python floats for wall-clock times and durations are modelled as rationals.
* The tiktoken encoder is a pluggable deterministic counter, modelled as a
  function field countTokens of the collector.
* The SQLite database is a pair of append-only row lists; INTEGER PRIMARY KEY
  auto-assignment on an append-only table yields id = row count + 1.
* json.dumps of list (set) for the layers_accessed column is modelled as the
  set itself (the serialisation is order-insensitive up to set equality).
* Failures of the storage layer are injected through an explicit failure-point
  parameter; the `with sqlite3.connect` block commits the transaction when the
  body finishes and rolls it back (re-raising) when a statement raises, which
  in a pure state-passing model means an erroring call leaves the database
  component untouched.
* The remote chat-completion service is an oracle function from the message
  list to a success (content, duration, token usage) or a raised exception
  (carrying its message string); the context_type argument merely tags the
  call site.  Calls to the service and layer-access reports are recorded in an
  observable event trace so that theorems can speak about which stages ran.
-/

namespace ReflectionAgent

/-- One queued completion record inside the in-flight accumulator
(`log_completion` appends these to `current_interaction['completions']`). -/
structure CompletionRec where
  context_type : String
  duration : ℚ
  prompt_tokens : ℕ
  completion_tokens : ℕ
  deriving DecidableEq

/-- The ephemeral accumulator: the `current_interaction` dict created by
`start_interaction`. -/
structure Accum where
  start_time : ℚ
  completions : List CompletionRec
  layer_access : Finset ℕ
  deriving DecidableEq

/-- A row of the `interactions` table. -/
structure InteractionRow where
  id : ℕ
  session_id : String
  timestamp : String
  prompt : String
  solution : String
  reflection : String
  total_tokens : ℕ
  response_time : ℚ
  layers_accessed : Finset ℕ
  deriving DecidableEq

/-- A row of the `completions` table. -/
structure CompletionRow where
  id : ℕ
  interaction_id : ℕ
  context_type : String
  duration : ℚ
  prompt_tokens : ℕ
  completion_tokens : ℕ
  deriving DecidableEq

/-- The SQLite database at `db_path`: the two tables. -/
structure DB where
  interactions : List InteractionRow
  completions : List CompletionRow
  deriving DecidableEq

/-- SQLite assigns `max rowid + 1`; on an append-only table this is the row
count plus one. -/
def nextId {α : Type} (rows : List α) : ℕ := rows.length + 1

/-- The MetricsCollector object: token counter (tiktoken encoding for the
model), session id minted at construction, the single current-interaction
slot, and the database its `db_path` designates. -/
structure MetricsCollector where
  countTokens : String → ℕ
  session_id : String
  current_interaction : Option Accum
  db : DB

namespace MetricsCollector

/-- `start_interaction`: opens a fresh accumulator (overwriting any prior
one). `now` is the value `time.time()` returned. -/
def start_interaction (c : MetricsCollector) (now : ℚ) : MetricsCollector :=
  let acc : Accum := { start_time := now, completions := [], layer_access := ∅ }
  { c with current_interaction := some acc }

/-- `log_layer_access`: adds the layer to the active accumulator's set; no-op
when no accumulator is active. -/
def log_layer_access (c : MetricsCollector) (layer : ℕ) : MetricsCollector :=
  match c.current_interaction with
  | some acc =>
      let acc1 : Accum := { acc with layer_access := insert layer acc.layer_access }
      { c with current_interaction := some acc1 }
  | none => c

/-- `log_completion`: appends a completion record to the active accumulator;
no-op when no accumulator is active. -/
def log_completion (c : MetricsCollector) (context_type : String) (duration : ℚ)
    (prompt_tokens completion_tokens : ℕ) : MetricsCollector :=
  match c.current_interaction with
  | some acc =>
      let rec1 : CompletionRec :=
        { context_type := context_type, duration := duration,
          prompt_tokens := prompt_tokens, completion_tokens := completion_tokens }
      let acc1 : Accum := { acc with completions := acc.completions ++ [rec1] }
      { c with current_interaction := some acc1 }
  | none => c

/-- A point at which the SQLite layer raises inside `end_interaction`:
the `sqlite3.connect` call, the interaction INSERT, or the i-th completion
INSERT (0-based). `none` injected means every statement succeeds. -/
inductive StoreFail where
  | connect : StoreFail
  | insertInteraction : StoreFail
  | insertCompletion : ℕ → StoreFail
  deriving DecidableEq

/-- The interaction row `end_interaction` inserts, given the active
accumulator, the end time and the timestamp string. -/
def mkInteractionRow (c : MetricsCollector) (acc : Accum) (tEnd : ℚ)
    (ts : String) (prompt solution reflection : String) : InteractionRow :=
  { id := nextId c.db.interactions
    session_id := c.session_id
    timestamp := ts
    prompt := prompt
    solution := solution
    reflection := reflection
    total_tokens := c.countTokens (prompt ++ solution ++ reflection)
    response_time := tEnd - acc.start_time
    layers_accessed := acc.layer_access }

/-- The loop inserting the queued completion rows inside the transaction,
with the failure point injected. `i` counts the loop iterations already
done; ids continue the completions table's sequence. -/
def insertCompletions (sc : Option StoreFail) (iid : ℕ) :
    List CompletionRec → ℕ → DB → Except StoreFail DB
  | [], _, db => .ok db
  | comp :: rest, i, db =>
      if sc = some (.insertCompletion i) then .error (.insertCompletion i)
      else insertCompletions sc iid rest (i + 1)
        { db with completions := db.completions ++
            [{ id := nextId db.completions, interaction_id := iid,
               context_type := comp.context_type, duration := comp.duration,
               prompt_tokens := comp.prompt_tokens,
               completion_tokens := comp.completion_tokens }] }

/-- The completion rows the loop writes on success: `iid` is the parent
interaction's id and `len` the size of the completions table when the loop
starts (ids continue its sequence). -/
def mkCompletionRows (iid : ℕ) : List CompletionRec → ℕ → List CompletionRow
  | [], _ => []
  | comp :: rest, len =>
      { id := len + 1, interaction_id := iid, context_type := comp.context_type,
        duration := comp.duration, prompt_tokens := comp.prompt_tokens,
        completion_tokens := comp.completion_tokens } ::
        mkCompletionRows iid rest (len + 1)

/-- `end_interaction`: returns immediately when no accumulator is active;
otherwise runs one transaction inserting the interaction row and the queued
completion rows.  When a statement raises, the `with` block rolls the
transaction back and re-raises, so the database is unchanged and the
`self.current_interaction = None` line after the block is never reached.
The `layers_accessed` argument is accepted but never read: the row's column
comes from the accumulator's own set. -/
def end_interaction (c : MetricsCollector) (sc : Option StoreFail) (tEnd : ℚ)
    (ts : String) (prompt solution reflection : String)
    (layers_accessed : List ℕ) : Except StoreFail Unit × MetricsCollector :=
  match c.current_interaction with
  | none => (.ok (), c)
  | some acc =>
      if sc = some StoreFail.connect then (.error StoreFail.connect, c)
      else if sc = some StoreFail.insertInteraction then
        (.error StoreFail.insertInteraction, c)
      else
        let row := mkInteractionRow c acc tEnd ts prompt solution reflection
        let db1 : DB := { c.db with interactions := c.db.interactions ++ [row] }
        match insertCompletions sc row.id acc.completions 0 db1 with
        | .error e => (.error e, c)
        | .ok db2 => (.ok (), { c with db := db2, current_interaction := none })

/-- What `get_summary` returns.  SQL `AVG` over zero rows is NULL, hence the
options. -/
structure Summary where
  interaction_count : ℕ
  avg_tokens : Option ℚ
  avg_response_time : Option ℚ
  recent_layer_patterns : List (Finset ℕ)
  deriving DecidableEq

/-- `get_summary`: aggregates over the interactions of this collector's
session.  `ORDER BY timestamp DESC LIMIT 10` is modelled as reverse insertion
order (timestamps are minted from a monotone clock at insert time). -/
def get_summary (c : MetricsCollector) : Summary :=
  let rows := c.db.interactions.filter (fun r => r.session_id == c.session_id)
  { interaction_count := rows.length
    avg_tokens :=
      if rows.length = 0 then none
      else some (((rows.map (fun r => (r.total_tokens : ℚ))).sum) / rows.length)
    avg_response_time :=
      if rows.length = 0 then none
      else some (((rows.map (fun r => r.response_time)).sum) / rows.length)
    recent_layer_patterns :=
      ((rows.reverse).take 10).map (fun r => r.layers_accessed) }

end MetricsCollector

/-- No completion row dangles: each references an interaction row present in
the table. -/
def DB.noDangling (db : DB) : Prop :=
  ∀ cr ∈ db.completions, ∃ ir ∈ db.interactions, cr.interaction_id = ir.id

instance (db : DB) : Decidable db.noDangling := by
  unfold DB.noDangling; infer_instance

/-! ### The agent pipeline (src/agent.py) -/

/-- A chat message: a `{"role": ..., "content": ...}` dict. -/
structure Message where
  role : String
  content : String
  deriving DecidableEq

/-- What one call to `client.chat.completions.create` does: either the
response (its content plus the usage counters, and the measured call
duration), or a raised exception carrying its `str(e)`. -/
inductive LLMResult where
  | success : String → ℚ → ℕ → ℕ → LLMResult
  | failure : String → LLMResult
  deriving DecidableEq

/-- An observable side effect of a pipeline run: a `log_layer_access` report
sent to the metrics collector, or a call placed to the completion service
(tagged by its `context_type`). -/
inductive Event where
  | layerReport : ℕ → Event
  | completionCall : String → Event
  deriving DecidableEq

/-- The CodingAgent object together with its environment: the filesystem
(`load_text_file` yields the empty string for a missing or unreadable file),
the remote completion service as an oracle over the message list (temperature
is fixed; the `context_type` argument merely tags the call site), and the
clock values the run observes. -/
structure CodingAgent where
  files : String → String
  oracle : List Message → String → LLMResult
  startTime : ℚ
  endTime : ℚ
  endTimestamp : String
  storeFail : Option MetricsCollector.StoreFail

namespace CodingAgent

/-- `load_text_file`: pure lookup, empty string on miss. -/
def load_text_file (a : CodingAgent) (file_path : String) : String :=
  a.files file_path

/-- `get_completion`: calls the service; on success returns the content and
logs a completion record into the active accumulator (when a collector is
present); on any exception returns the `"Error: ..."` sentinel and logs
nothing.  The call itself is recorded in the event trace either way. -/
def get_completion (a : CodingAgent) (metrics : Option MetricsCollector)
    (messages : List Message) (context_type : String) :
    String × Option MetricsCollector × List Event :=
  match a.oracle messages context_type with
  | .success content duration pt ct =>
      (content, metrics.map (fun m => m.log_completion context_type duration pt ct),
        [Event.completionCall context_type])
  | .failure e =>
      ("Error: " ++ e, metrics, [Event.completionCall context_type])

/-- The fixed id → filename mapping of `gather_memory`. -/
def layer_files : List (ℕ × String) :=
  [(1, "layer_1_logic.md"), (2, "layer_2_concepts.md"),
   (3, "layer_3_important_details.md"), (4, "layer_4_arbitrary.md")]

/-- The block `gather_memory` emits for a layer with non-empty content. -/
def layerBlock (layer : ℕ) (content : String) : String :=
  "=== Layer " ++ toString layer ++ " Knowledge ===\n" ++ content ++ "\n"

/-- The loop body of `gather_memory`: for each requested layer present in the
mapping, report the access (when a collector is present), load the file, and
keep a block when the content is non-empty; unrecognised ids are skipped. -/
def gather_memory_aux (a : CodingAgent) :
    Option MetricsCollector → List ℕ → List String × Option MetricsCollector × List Event
  | metrics, [] => ([], metrics, [])
  | metrics, layer :: rest =>
      match layer_files.lookup layer with
      | some fname =>
          let metrics1 := metrics.map (fun m => m.log_layer_access layer)
          let reported : List Event :=
            if metrics.isSome then [Event.layerReport layer] else []
          let content := load_text_file a ("memory/" ++ fname)
          let out := gather_memory_aux a metrics1 rest
          (if content = "" then out.1 else layerBlock layer content :: out.1,
            out.2.1, reported ++ out.2.2)
      | none => gather_memory_aux a metrics rest

/-- `gather_memory`: the newline-join of the emitted blocks, plus the updated
collector and the trace of layer-access reports. -/
def gather_memory (a : CodingAgent) (metrics : Option MetricsCollector)
    (layers_needed : List ℕ) : String × Option MetricsCollector × List Event :=
  let out := gather_memory_aux a metrics layers_needed
  (String.intercalate "\n" out.1, out.2)

/-- The trigger keywords of `_get_initial_solution` (already lowercase in the
source). -/
def trigger_keywords : List String := ["legacy", "old version", "deprecated", "edge case"]

/-- Python substring containment on character lists: is `needle` a prefix of
`hay`? -/
def isPrefixB : List Char → List Char → Bool
  | [], _ => true
  | _ :: _, [] => false
  | c :: cs, d :: ds => c == d && isPrefixB cs ds

/-- Python `needle in hay` on character lists: contiguous substring test. -/
def containsSubB : List Char → List Char → Bool
  | needle, [] => needle.isEmpty
  | needle, d :: ds => isPrefixB needle (d :: ds) || containsSubB needle ds

/-- Python `needle in hay` on strings. -/
def strContainsSub (hay needle : String) : Bool :=
  containsSubB needle.data hay.data

/-- Python `s.startswith(pre)`: prefix test on the character sequence. -/
def str_startswith (s pre : String) : Bool :=
  isPrefixB pre.data s.data

/-- Python `s.lower()`: ASCII lowercasing, character by character. -/
def str_lower (s : String) : String :=
  String.mk (s.data.map Char.toLower)

/-- The layer-4 trigger test of `_get_initial_solution`:
`any(keyword in user_query.lower() for keyword in [...])`. -/
def hasLayer4Trigger (user_query : String) : Bool :=
  trigger_keywords.any (fun keyword => strContainsSub (str_lower user_query) keyword)

/-- The `layers_to_load` list built by `_get_initial_solution`: `[1, 2, 3]`,
with 4 appended when the query matches a trigger keyword. -/
def layers_to_load (user_query : String) : List ℕ :=
  if hasLayer4Trigger user_query then [1, 2, 3] ++ [4] else [1, 2, 3]

/-- The fallback critique instruction set of `_get_reflection`. -/
def fallback_reflection_prompt : String :=
  "\n            Analyze this solution and provide specific improvements for:\n            1. Logic and algorithm\n            2. Design patterns and principles\n            3. Implementation details\n            4. Edge cases and optimization\n            \n            Format your response with concrete suggestions and code changes.\n            "

/-- `_get_initial_solution`: raises `FileNotFoundError` (the error value) when
the system prompt is missing or empty; otherwise gathers memory for the
selected layers and calls the completion service with
context_type `initial_solution`. -/
def get_initial_solution (a : CodingAgent) (metrics : Option MetricsCollector)
    (user_query : String) :
    Except String (String × Option MetricsCollector × List Event) :=
  let system_prompt := load_text_file a "prompts/system_prompt.md"
  if system_prompt = "" then .error "System prompt file not found"
  else
    let gm := gather_memory a metrics (layers_to_load user_query)
    let messages : List Message :=
      [{ role := "system", content := system_prompt },
       { role := "system", content := "Relevant memory:\n" ++ gm.1 },
       { role := "user", content := user_query }]
    let gc := get_completion a gm.2.1 messages "initial_solution"
    .ok (gc.1, gc.2.1, gm.2.2 ++ gc.2.2)

/-- `_get_reflection`: loads the critique prompt (falling back to the built-in
instruction set) and calls the completion service with
context_type `reflection`. -/
def get_reflection (a : CodingAgent) (metrics : Option MetricsCollector)
    (solution : String) : String × Option MetricsCollector × List Event :=
  let loaded := load_text_file a "prompts/reflection_prompt.md"
  let reflection_prompt := if loaded = "" then fallback_reflection_prompt else loaded
  let messages : List Message :=
    [{ role := "system",
       content := "You are a code review assistant providing actionable improvements." },
     { role := "user",
       content := reflection_prompt ++ "\n\nSolution to analyze:\n" ++ solution }]
  get_completion a metrics messages "reflection"

/-- The composite f-string prompt of `refine_solution`. -/
def refinement_prompt_text (original_solution reflection_feedback user_query : String) :
    String :=
  "\n        Original Task: " ++ user_query ++
  "\n\n        Initial Solution:\n        " ++ original_solution ++
  "\n\n        Reflection Feedback:\n        " ++ reflection_feedback ++
  "\n\n        Please improve the solution based on this reflection feedback. Specifically:\n        1. Implement all high-priority suggestions\n        2. Address the specific code changes recommended\n        3. Add any missing error handling\n        4. Incorporate the recommended optimizations\n        \n        Provide the improved solution with comments explaining the key improvements made.\n        Ensure the solution maintains readability while implementing all suggested enhancements.\n        "

/-- `refine_solution`: calls the completion service with
context_type `refinement`. -/
def refine_solution (a : CodingAgent) (metrics : Option MetricsCollector)
    (original_solution reflection_feedback user_query : String) :
    String × Option MetricsCollector × List Event :=
  let messages : List Message :=
    [{ role := "system",
       content := "You are a coding assistant tasked with improving a solution based on detailed feedback." },
     { role := "user",
       content := refinement_prompt_text original_solution reflection_feedback user_query }]
  get_completion a metrics messages "refinement"

/-- What one `run_agent_with_reflection` call yields: the returned three-tuple,
the collector afterwards, the event trace, and the final values of the three
local stage variables (empty string when a stage did not run). -/
structure RunResult where
  output : String × String × String
  metricsOut : Option MetricsCollector
  events : List Event
  initial_solution : String
  reflection : String
  improved_solution : String

/-- Python `s or d` for strings: `d` when `s` is empty. -/
def strOr (s d : String) : String := if s = "" then d else s

/-- Lines 217-236 of `run_agent_with_reflection`: read the accessed layers off
the collector, attempt `end_interaction` (its storage error is caught and
logged, never re-raised), and assemble the returned tuple, substituting the
placeholders for empty stage variables. -/
def finishRun (a : CodingAgent) (metrics : Option MetricsCollector)
    (events : List Event) (user_query initial_solution reflection improved_solution : String) :
    RunResult :=
  let accessed_layers : Finset ℕ :=
    match metrics with
    | some m =>
        match m.current_interaction with
        | some acc => acc.layer_access
        | none => ∅
        -- with a collector present this slot was filled by start_interaction
        -- and nothing clears it before this point, so the none arm is
        -- unreachable from run_agent_with_reflection
    | none => ∅
  let metricsOut : Option MetricsCollector :=
    match metrics with
    | some m =>
        some (m.end_interaction a.storeFail a.endTime a.endTimestamp user_query
          (strOr improved_solution initial_solution) reflection
          (Finset.sort (· ≤ ·) accessed_layers)).2
    | none => none
  { output := (strOr initial_solution "Error: Failed to generate initial solution",
               strOr reflection "No reflection analysis available",
               strOr improved_solution "No improvements made")
    metricsOut := metricsOut
    events := events
    initial_solution := initial_solution
    reflection := reflection
    improved_solution := improved_solution }

/-- `run_agent_with_reflection`: start the accumulator, run the up-to-three
stages with the sentinel-prefix short-circuiting, finalize metrics
best-effort, return the tuple.  The `except` arm is reachable only through
the missing-system-prompt `FileNotFoundError` (every service failure is
absorbed into the sentinel inside `get_completion`). -/
def run_agent_with_reflection (a : CodingAgent) (metrics0 : Option MetricsCollector)
    (user_query : String) : RunResult :=
  let m1 := metrics0.map (fun m => m.start_interaction a.startTime)
  match get_initial_solution a m1 user_query with
  | .error e =>
      { output := (strOr "" ("Error: " ++ e), strOr "" "Reflection failed.",
                   strOr "" "No improved solution available.")
        metricsOut := m1
        events := []
        initial_solution := ""
        reflection := ""
        improved_solution := "" }
  | .ok st1 =>
      let initial_solution := st1.1
      if !(str_startswith initial_solution "Error") then
        let st2 := get_reflection a st1.2.1 initial_solution
        let reflection := st2.1
        if !(str_startswith reflection "Error") then
          let st3 := refine_solution a st2.2.1 initial_solution reflection user_query
          finishRun a st3.2.1 (st1.2.2 ++ st2.2.2 ++ st3.2.2) user_query
            initial_solution reflection st3.1
        else
          finishRun a st2.2.1 (st1.2.2 ++ st2.2.2) user_query
            initial_solution reflection ""
      else
        finishRun a st1.2.1 st1.2.2 user_query initial_solution "" ""

/-- Whether the run placed a completion call with the given context type. -/
def stageInvoked (r : RunResult) (context_type : String) : Prop :=
  Event.completionCall context_type ∈ r.events

instance (r : RunResult) (context_type : String) :
    Decidable (stageInvoked r context_type) := by
  unfold stageInvoked; infer_instance

end CodingAgent

/-! ### Concrete fixtures used by witnesses and counterexamples -/

open CodingAgent MetricsCollector

/-- A sample filesystem: a system prompt and layers 1 and 3 present, all other
files missing. -/
def sampleFiles : String → String := fun p =>
  if p = "prompts/system_prompt.md" then "SYS"
  else if p = "memory/layer_1_logic.md" then "L1"
  else if p = "memory/layer_3_important_details.md" then "L3"
  else ""

/-- A sample service that succeeds on every stage. -/
def sampleOracle : List Message → String → LLMResult := fun _ context_type =>
  if context_type = "initial_solution" then .success "sol" 1 10 20
  else if context_type = "reflection" then .success "refl" 1 5 6
  else .success "improved" 1 7 8

/-- A service whose initial stage succeeds with empty content and whose
reflection stage raises. -/
def emptyThenFailOracle : List Message → String → LLMResult := fun _ context_type =>
  if context_type = "initial_solution" then .success "" 1 10 20
  else if context_type = "reflection" then .failure "boom"
  else .success "improved" 1 7 8

/-- A sample agent over `sampleFiles` and `sampleOracle`, with no storage
failure injected. -/
def sampleAgent : CodingAgent :=
  { files := sampleFiles, oracle := sampleOracle, startTime := 0, endTime := 3,
    endTimestamp := "2025-01-01T00:00:00", storeFail := none }

/-- The agent over an empty filesystem (in particular, no system prompt). -/
def noPromptAgent : CodingAgent :=
  { sampleAgent with files := fun _ => "" }

/-- The agent whose initial stage yields empty content and whose reflection
stage errors. -/
def emptyInitialAgent : CodingAgent :=
  { sampleAgent with oracle := emptyThenFailOracle }

/-- A freshly constructed collector: no active accumulator, empty database. -/
def sampleCollector : MetricsCollector :=
  { countTokens := fun s => s.length, session_id := "sess",
    current_interaction := none, db := { interactions := [], completions := [] } }

/-- An accumulator with one queued completion and layers {1, 3} accessed. -/
def sampleAccum : Accum :=
  { start_time := 0,
    completions := [{ context_type := "initial_solution", duration := 1,
                      prompt_tokens := 10, completion_tokens := 20 }],
    layer_access := {1, 3} }

/-- The sample collector with `sampleAccum` active. -/
def activeCollector : MetricsCollector :=
  { sampleCollector with current_interaction := some sampleAccum }

/-! ### Helper lemmas -/

namespace CodingAgent

theorem isPrefixB_iff : ∀ (n h : List Char), isPrefixB n h = true ↔ n <+: h
  | [], h => by simp [isPrefixB]
  | _ :: _, [] => by simp [isPrefixB]
  | c :: cs, d :: ds => by
      simp [isPrefixB, List.cons_prefix_cons, isPrefixB_iff cs ds]

theorem containsSubB_iff : ∀ (n h : List Char), containsSubB n h = true ↔ n <:+: h
  | n, [] => by simp [containsSubB, List.isEmpty_iff]
  | n, d :: ds => by
      simp [containsSubB, isPrefixB_iff, containsSubB_iff n ds, List.infix_cons_iff]

/-- Closed form of the `gather_memory` loop when a collector is present: the
blocks kept and the layer-access reports sent. -/
theorem gather_memory_aux_spec (a : CodingAgent) :
    ∀ (ls : List ℕ) (m : MetricsCollector),
      (gather_memory_aux a (some m) ls).1 = ls.filterMap (fun l =>
          (layer_files.lookup l).bind (fun fname =>
            if load_text_file a ("memory/" ++ fname) = "" then none
            else some (layerBlock l (load_text_file a ("memory/" ++ fname))))) ∧
      (gather_memory_aux a (some m) ls).2.2
        = (ls.filter (fun l => (layer_files.lookup l).isSome)).map Event.layerReport
  | [], m => by simp [gather_memory_aux]
  | layer :: rest, m => by
      cases hl : layer_files.lookup layer with
      | none =>
          have ih := gather_memory_aux_spec a rest m
          simp [gather_memory_aux, hl, ih.1, ih.2]
      | some fname =>
          have ih := gather_memory_aux_spec a rest (m.log_layer_access layer)
          by_cases hc : load_text_file a ("memory/" ++ fname) = "" <;>
            simp [gather_memory_aux, hl, hc, ih.1, ih.2]

end CodingAgent

namespace CodingAgent

theorem get_completion_events (a : CodingAgent) (m : Option MetricsCollector)
    (messages : List Message) (context_type : String) :
    (get_completion a m messages context_type).2.2 = [Event.completionCall context_type] := by
  unfold get_completion
  cases a.oracle messages context_type <;> rfl

theorem get_reflection_events (a : CodingAgent) (m : Option MetricsCollector)
    (solution : String) :
    (get_reflection a m solution).2.2 = [Event.completionCall "reflection"] := by
  unfold get_reflection
  exact get_completion_events a m _ "reflection"

theorem refine_solution_events (a : CodingAgent) (m : Option MetricsCollector)
    (original_solution reflection_feedback user_query : String) :
    (refine_solution a m original_solution reflection_feedback user_query).2.2
      = [Event.completionCall "refinement"] := by
  unfold refine_solution
  exact get_completion_events a m _ "refinement"

theorem gather_memory_aux_no_call (a : CodingAgent) (context_type : String) :
    ∀ (ls : List ℕ) (mo : Option MetricsCollector),
      Event.completionCall context_type ∉ (gather_memory_aux a mo ls).2.2
  | [], mo => by simp [gather_memory_aux]
  | layer :: rest, mo => by
      cases hl : layer_files.lookup layer with
      | none =>
          simpa [gather_memory_aux, hl] using
            gather_memory_aux_no_call a context_type rest mo
      | some fname =>
          have ih := gather_memory_aux_no_call a context_type rest
            (mo.map fun m => m.log_layer_access layer)
          simp only [gather_memory_aux, hl, List.mem_append]
          rintro (hrep | hrest)
          · cases mo <;> simp_all
          · exact ih hrest

theorem get_initial_solution_ok_events (a : CodingAgent) (m : Option MetricsCollector)
    (user_query : String) (st1 : String × Option MetricsCollector × List Event)
    (h : get_initial_solution a m user_query = .ok st1) :
    ∃ gmev, st1.2.2 = gmev ++ [Event.completionCall "initial_solution"] ∧
      ∀ context_type, Event.completionCall context_type ∉ gmev := by
  unfold get_initial_solution at h
  by_cases hs : load_text_file a "prompts/system_prompt.md" = ""
  · rw [if_pos hs] at h
    cases h
  · rw [if_neg hs] at h
    refine ⟨(gather_memory a m (layers_to_load user_query)).2.2, ?_, ?_⟩
    · injection h with h'
      rw [← h']
      dsimp only
      rw [get_completion_events]
    · intro context_type
      exact gather_memory_aux_no_call a context_type (layers_to_load user_query) m

theorem get_initial_solution_error (a : CodingAgent) (m : Option MetricsCollector)
    (user_query e : String)
    (h : get_initial_solution a m user_query = .error e) :
    a.files "prompts/system_prompt.md" = "" ∧ e = "System prompt file not found" := by
  unfold get_initial_solution at h
  by_cases hs : load_text_file a "prompts/system_prompt.md" = ""
  · rw [if_pos hs] at h
    injection h with h'
    exact ⟨hs, h'.symm⟩
  · rw [if_neg hs] at h
    cases h

@[simp] theorem finishRun_events (a : CodingAgent) (metrics : Option MetricsCollector)
    (events : List Event) (q i r imp : String) :
    (finishRun a metrics events q i r imp).events = events := rfl

@[simp] theorem finishRun_initial (a : CodingAgent) (metrics : Option MetricsCollector)
    (events : List Event) (q i r imp : String) :
    (finishRun a metrics events q i r imp).initial_solution = i := rfl

@[simp] theorem finishRun_reflection (a : CodingAgent) (metrics : Option MetricsCollector)
    (events : List Event) (q i r imp : String) :
    (finishRun a metrics events q i r imp).reflection = r := rfl

@[simp] theorem finishRun_output (a : CodingAgent) (metrics : Option MetricsCollector)
    (events : List Event) (q i r imp : String) :
    (finishRun a metrics events q i r imp).output
      = (strOr i "Error: Failed to generate initial solution",
         strOr r "No reflection analysis available",
         strOr imp "No improvements made") := rfl

theorem strOr_ne (s d : String) (hd : d ≠ "") : strOr s d ≠ "" := by
  unfold strOr
  split
  · exact hd
  · assumption

theorem string_append_ne_empty (s t : String) (hs : s ≠ "") : s ++ t ≠ "" := by
  intro h
  apply hs
  have hd : s.data ++ t.data = [] := by
    have hh := congrArg String.data h
    simpa [String.data_append] using hh
  exact String.ext (List.append_eq_nil.mp hd).1

/-- The run when `_get_initial_solution` raises (missing system prompt). -/
theorem run_after_init_error (a : CodingAgent) (m0 : Option MetricsCollector)
    (user_query e : String)
    (hg : get_initial_solution a (m0.map fun m => m.start_interaction a.startTime)
      user_query = .error e) :
    run_agent_with_reflection a m0 user_query
      = { output := (strOr "" ("Error: " ++ e), strOr "" "Reflection failed.", strOr "" "No improved solution available.")
          metricsOut := m0.map fun m => m.start_interaction a.startTime
          events := []
          initial_solution := ""
          reflection := ""
          improved_solution := "" } := by
  unfold run_agent_with_reflection
  dsimp only
  rw [hg]

/-- The run when the initial stage's result carries the error sentinel. -/
theorem run_initial_errored (a : CodingAgent) (m0 : Option MetricsCollector)
    (user_query : String) (st1 : String × Option MetricsCollector × List Event)
    (hg : get_initial_solution a (m0.map fun m => m.start_interaction a.startTime)
      user_query = .ok st1)
    (hI : str_startswith st1.1 "Error" = true) :
    run_agent_with_reflection a m0 user_query
      = finishRun a st1.2.1 st1.2.2 user_query st1.1 "" "" := by
  unfold run_agent_with_reflection
  dsimp only
  rw [hg]
  simp [hI]

/-- The run when the initial stage succeeds and the reflection stage's result
carries the error sentinel. -/
theorem run_reflection_errored (a : CodingAgent) (m0 : Option MetricsCollector)
    (user_query : String) (st1 : String × Option MetricsCollector × List Event)
    (hg : get_initial_solution a (m0.map fun m => m.start_interaction a.startTime)
      user_query = .ok st1)
    (hI : str_startswith st1.1 "Error" = false)
    (hR : str_startswith (get_reflection a st1.2.1 st1.1).1 "Error" = true) :
    run_agent_with_reflection a m0 user_query
      = finishRun a (get_reflection a st1.2.1 st1.1).2.1
          (st1.2.2 ++ (get_reflection a st1.2.1 st1.1).2.2) user_query
          st1.1 (get_reflection a st1.2.1 st1.1).1 "" := by
  unfold run_agent_with_reflection
  dsimp only
  rw [hg]
  simp [hI, hR]

/-- The run when all three stages proceed. -/
theorem run_all_stages (a : CodingAgent) (m0 : Option MetricsCollector)
    (user_query : String) (st1 : String × Option MetricsCollector × List Event)
    (hg : get_initial_solution a (m0.map fun m => m.start_interaction a.startTime)
      user_query = .ok st1)
    (hI : str_startswith st1.1 "Error" = false)
    (hR : str_startswith (get_reflection a st1.2.1 st1.1).1 "Error" = false) :
    run_agent_with_reflection a m0 user_query
      = finishRun a
          (refine_solution a (get_reflection a st1.2.1 st1.1).2.1 st1.1
            (get_reflection a st1.2.1 st1.1).1 user_query).2.1
          (st1.2.2 ++ (get_reflection a st1.2.1 st1.1).2.2 ++
            (refine_solution a (get_reflection a st1.2.1 st1.1).2.1 st1.1
              (get_reflection a st1.2.1 st1.1).1 user_query).2.2) user_query
          st1.1 (get_reflection a st1.2.1 st1.1).1
          (refine_solution a (get_reflection a st1.2.1 st1.1).2.1 st1.1
            (get_reflection a st1.2.1 st1.1).1 user_query).1 := by
  unfold run_agent_with_reflection
  dsimp only
  rw [hg]
  simp [hI, hR]

theorem finishRun_output_nonempty (a : CodingAgent) (metrics : Option MetricsCollector)
    (events : List Event) (q i r imp : String) :
    (finishRun a metrics events q i r imp).output.1 ≠ "" ∧
    (finishRun a metrics events q i r imp).output.2.1 ≠ "" ∧
    (finishRun a metrics events q i r imp).output.2.2 ≠ "" :=
  ⟨strOr_ne _ _ (by decide), strOr_ne _ _ (by decide), strOr_ne _ _ (by decide)⟩

end CodingAgent

/-! ### The claims -/

/-- C8: for every query the orchestrator requests exactly layers {1,2,3} for
the initial stage, and additionally layer 4 exactly when the query text
contains one of the trigger substrings "legacy", "old version", "deprecated",
"edge case", matched case-insensitively (substring containment on the
lowercased query). -/
theorem c8_layer_selection_policy (user_query : String) :
    layers_to_load user_query
      = (if hasLayer4Trigger user_query then [1, 2, 3, 4] else [1, 2, 3]) ∧
    (∀ l : ℕ, l ∈ layers_to_load user_query ↔
      (l = 1 ∨ l = 2 ∨ l = 3 ∨ (l = 4 ∧ hasLayer4Trigger user_query = true))) ∧
    (hasLayer4Trigger user_query = true ↔
      ∃ keyword ∈ trigger_keywords, keyword.data <:+: (str_lower user_query).data) := by
  refine ⟨?_, ?_, ?_⟩
  · unfold layers_to_load
    split <;> rfl
  · intro l
    unfold layers_to_load
    by_cases h : hasLayer4Trigger user_query <;> simp [h]
  · unfold hasLayer4Trigger strContainsSub
    simp [List.any_eq_true, containsSubB_iff]

/-- C9: for every requested layer id, `gather_memory` (with a collector
present) sends a layer-access report exactly for the ids in the recognized
mapping, regardless of content emptiness; a labeled knowledge block is kept
only for recognized ids with non-empty content; ids outside the mapping are
skipped with no report; the return value is the newline-join of the emitted
blocks, empty when no layer yielded content. -/
theorem c9_gather_memory_contract (a : CodingAgent) (m : MetricsCollector)
    (layers_needed : List ℕ) :
    (gather_memory a (some m) layers_needed).2.2
      = (layers_needed.filter (fun l => (layer_files.lookup l).isSome)).map
          Event.layerReport ∧
    (gather_memory a (some m) layers_needed).1
      = String.intercalate "\n" (layers_needed.filterMap (fun l =>
          (layer_files.lookup l).bind (fun fname =>
            if load_text_file a ("memory/" ++ fname) = "" then none
            else some (layerBlock l (load_text_file a ("memory/" ++ fname)))))) ∧
    ((∀ l ∈ layers_needed, ((layer_files.lookup l).map
        (fun fname => load_text_file a ("memory/" ++ fname))).getD "" = "") →
      (gather_memory a (some m) layers_needed).1 = "") := by
  have h := gather_memory_aux_spec a layers_needed m
  refine ⟨by simpa [gather_memory] using h.2,
    by simpa [gather_memory] using congrArg (String.intercalate "\n") h.1, ?_⟩
  intro hall
  have hnil : layers_needed.filterMap (fun l =>
      (layer_files.lookup l).bind (fun fname =>
        if load_text_file a ("memory/" ++ fname) = "" then none
        else some (layerBlock l (load_text_file a ("memory/" ++ fname))))) = [] := by
    rw [List.filterMap_eq_nil_iff]
    intro l hl
    cases hlk : layer_files.lookup l with
    | none => simp
    | some fname =>
        have := hall l hl
        rw [hlk] at this
        simp only [Option.map_some', Option.getD_some] at this
        simp [this]
  rw [gather_memory, h.1, hnil]
  rfl

theorem c9_witness : (gather_memory sampleAgent (some sampleCollector) [2, 5]).1 = "" :=
  (c9_gather_memory_contract sampleAgent sampleCollector [2, 5]).2.2 (by decide)

namespace MetricsCollector

theorem insertCompletions_none (iid : ℕ) :
    ∀ (comps : List CompletionRec) (i : ℕ) (db : DB),
      insertCompletions none iid comps i db
        = .ok ⟨db.interactions, db.completions ++ mkCompletionRows iid comps db.completions.length⟩
  | [], i, db => by simp [insertCompletions, mkCompletionRows]
  | comp :: rest, i, db => by
      rw [insertCompletions, if_neg (by simp),
        insertCompletions_none iid rest (i + 1) _]
      simp [mkCompletionRows, nextId]

theorem insertCompletions_cases (sc : Option StoreFail) (iid : ℕ) :
    ∀ (comps : List CompletionRec) (i : ℕ) (db : DB),
      (∃ e, insertCompletions sc iid comps i db = .error e) ∨
      insertCompletions sc iid comps i db
        = .ok ⟨db.interactions, db.completions ++ mkCompletionRows iid comps db.completions.length⟩
  | [], i, db => by
      right
      simp [insertCompletions, mkCompletionRows]
  | comp :: rest, i, db => by
      by_cases hf : sc = some (StoreFail.insertCompletion i)
      · exact Or.inl ⟨StoreFail.insertCompletion i, by rw [insertCompletions, if_pos hf]⟩
      · rw [insertCompletions, if_neg hf]
        rcases insertCompletions_cases sc iid rest (i + 1)
            ⟨db.interactions, db.completions ++
              [⟨nextId db.completions, iid, comp.context_type, comp.duration,
                comp.prompt_tokens, comp.completion_tokens⟩]⟩ with ⟨e, he⟩ | hok
        · exact Or.inl ⟨e, he⟩
        · right
          rw [hok]
          simp [mkCompletionRows, nextId]

theorem mkCompletionRows_interaction_id (iid : ℕ) :
    ∀ (comps : List CompletionRec) (len : ℕ) (r : CompletionRow),
      r ∈ mkCompletionRows iid comps len → r.interaction_id = iid
  | [], len, r => by simp [mkCompletionRows]
  | comp :: rest, len, r => by
      intro hr
      rcases List.mem_cons.mp hr with h | h
      · subst h; rfl
      · exact mkCompletionRows_interaction_id iid rest (len + 1) r h

/-- The successful `end_interaction`: one interaction row and all queued
completion rows are appended, the accumulator is cleared. -/
theorem end_interaction_ok_shape (c : MetricsCollector) (acc : Accum) (tEnd : ℚ)
    (ts prompt solution reflection : String) (la : List ℕ)
    (hacc : c.current_interaction = some acc) :
    c.end_interaction none tEnd ts prompt solution reflection la
      = (.ok (),
         { countTokens := c.countTokens
           session_id := c.session_id
           current_interaction := none
           db := ⟨c.db.interactions ++ [mkInteractionRow c acc tEnd ts prompt solution reflection], c.db.completions ++ mkCompletionRows (mkInteractionRow c acc tEnd ts prompt solution reflection).id acc.completions c.db.completions.length⟩ }) := by
  unfold end_interaction
  rw [hacc]
  dsimp only
  rw [if_neg (by simp), if_neg (by simp), insertCompletions_none]

end MetricsCollector

/-- C3: with an active accumulator, the persistence of the interaction row and
its queued completion rows is one atomic unit: on success exactly the one
interaction row and all its completion rows are appended; on any injected
storage failure (including one after the interaction INSERT and before or
between the completion INSERTs) the database is unchanged; and freedom from
dangling completion rows is preserved either way. -/
theorem c3_end_interaction_atomic (c : MetricsCollector)
    (sc : Option MetricsCollector.StoreFail) (tEnd : ℚ)
    (ts prompt solution reflection : String) (la : List ℕ) (acc : Accum)
    (hacc : c.current_interaction = some acc) (hwf : c.db.noDangling) :
    ((c.end_interaction sc tEnd ts prompt solution reflection la).2.db = c.db ∨
      ((c.end_interaction sc tEnd ts prompt solution reflection la).1 = .ok () ∧
       (c.end_interaction sc tEnd ts prompt solution reflection la).2.db.interactions
         = c.db.interactions ++ [mkInteractionRow c acc tEnd ts prompt solution reflection] ∧
       (c.end_interaction sc tEnd ts prompt solution reflection la).2.db.completions
         = c.db.completions ++ mkCompletionRows (mkInteractionRow c acc tEnd ts prompt solution reflection).id acc.completions c.db.completions.length)) ∧
    ((∃ e, (c.end_interaction sc tEnd ts prompt solution reflection la).1 = .error e) →
      (c.end_interaction sc tEnd ts prompt solution reflection la).2.db = c.db) ∧
    (c.end_interaction sc tEnd ts prompt solution reflection la).2.db.noDangling := by
  unfold MetricsCollector.end_interaction
  rw [hacc]
  dsimp only
  by_cases h1 : sc = some MetricsCollector.StoreFail.connect
  · rw [if_pos h1]
    exact ⟨Or.inl rfl, fun _ => rfl, hwf⟩
  · rw [if_neg h1]
    by_cases h2 : sc = some MetricsCollector.StoreFail.insertInteraction
    · rw [if_pos h2]
      exact ⟨Or.inl rfl, fun _ => rfl, hwf⟩
    · rw [if_neg h2]
      rcases MetricsCollector.insertCompletions_cases sc
          (mkInteractionRow c acc tEnd ts prompt solution reflection).id acc.completions 0
          ⟨c.db.interactions ++ [mkInteractionRow c acc tEnd ts prompt solution reflection], c.db.completions⟩ with ⟨e, he⟩ | hok
      · rw [he]
        exact ⟨Or.inl rfl, fun _ => rfl, hwf⟩
      · rw [hok]
        dsimp only
        refine ⟨Or.inr ⟨rfl, rfl, rfl⟩, ?_, ?_⟩
        · rintro ⟨e, he⟩
          cases he
        · intro cr hcr
          rcases List.mem_append.mp hcr with hold | hnew
          · rcases hwf cr hold with ⟨ir, hir, hid⟩
            exact ⟨ir, List.mem_append_left _ hir, hid⟩
          · refine ⟨mkInteractionRow c acc tEnd ts prompt solution reflection,
              List.mem_append_right _ (List.mem_singleton.mpr rfl), ?_⟩
            exact MetricsCollector.mkCompletionRows_interaction_id _ _ _ _ hnew

theorem c3_witness :
    ((activeCollector.end_interaction
        (some (MetricsCollector.StoreFail.insertCompletion 0)) 3 "ts" "p" "s" "r" []).2.db).noDangling :=
  (c3_end_interaction_atomic activeCollector
    (some (MetricsCollector.StoreFail.insertCompletion 0)) 3 "ts" "p" "s" "r" []
    sampleAccum rfl (by decide)).2.2

/-- C4 as written is false on the code: when the storage layer is unreachable
(`sqlite3.connect` raises), `end_interaction` raises the storage error before
reaching the `self.current_interaction = None` line, so the accumulator is NOT
cleared. -/
theorem c4_counterexample :
    (activeCollector.end_interaction (some MetricsCollector.StoreFail.connect)
        3 "ts" "p" "s" "r" []).1 = .error MetricsCollector.StoreFail.connect ∧
    (activeCollector.end_interaction (some MetricsCollector.StoreFail.connect)
        3 "ts" "p" "s" "r" []).2.current_interaction = some sampleAccum := by
  constructor <;> rfl

/-- C4 (amended): with an active accumulator and an unreachable persistence
layer, `end_interaction` fails with the storage error, nothing is written and
the write is not retried, and the accumulator is left in place (not
cleared): the collector is returned entirely unchanged. -/
theorem c4_storage_failure_keeps_accumulator (c : MetricsCollector) (tEnd : ℚ)
    (ts prompt solution reflection : String) (la : List ℕ) (acc : Accum)
    (hacc : c.current_interaction = some acc) :
    c.end_interaction (some MetricsCollector.StoreFail.connect)
        tEnd ts prompt solution reflection la
      = (.error MetricsCollector.StoreFail.connect, c) := by
  unfold MetricsCollector.end_interaction
  rw [hacc]
  dsimp only
  rw [if_pos rfl]

theorem c4_witness :
    activeCollector.end_interaction (some MetricsCollector.StoreFail.connect)
        3 "ts" "p" "s" "r" []
      = (.error MetricsCollector.StoreFail.connect, activeCollector) :=
  c4_storage_failure_keeps_accumulator activeCollector 3 "ts" "p" "s" "r" [] sampleAccum rfl

/-- C6: in a session with no previously persisted interactions, finalizing one
interaction whose accumulated layer set is {1,3} and whose
query+solution+critique concatenation counts N tokens makes `get_summary`
report interaction_count = 1, avg_tokens = N, and a recent layer pattern
equal to the set {1,3}. -/
theorem c6_finalize_then_summary (c : MetricsCollector) (acc : Accum) (tEnd : ℚ)
    (ts query solution critique : String) (la : List ℕ) (N : ℕ)
    (hacc : c.current_interaction = some acc)
    (hlayers : acc.layer_access = {1, 3})
    (hfresh : ∀ row ∈ c.db.interactions, row.session_id ≠ c.session_id)
    (hN : c.countTokens (query ++ solution ++ critique) = N) :
    (c.end_interaction none tEnd ts query solution critique la).1 = .ok () ∧
    ((c.end_interaction none tEnd ts query solution critique la).2.get_summary).interaction_count = 1 ∧
    ((c.end_interaction none tEnd ts query solution critique la).2.get_summary).avg_tokens = some (N : ℚ) ∧
    ({1, 3} : Finset ℕ) ∈ ((c.end_interaction none tEnd ts query solution critique la).2.get_summary).recent_layer_patterns := by
  rw [MetricsCollector.end_interaction_ok_shape c acc tEnd ts query solution critique la hacc]
  refine ⟨rfl, ?_, ?_, ?_⟩ <;>
  · unfold MetricsCollector.get_summary
    have hfilter : ∀ (rows : List InteractionRow),
        (∀ row ∈ rows, row.session_id ≠ c.session_id) →
        rows.filter (fun r => r.session_id == c.session_id) = [] := by
      intro rows h
      rw [List.filter_eq_nil_iff]
      intro r hr
      simpa using h r hr
    simp [List.filter_append, hfilter c.db.interactions hfresh, mkInteractionRow,
      hlayers, hN]

theorem c6_witness :
    ((activeCollector.end_interaction none 3 "ts" "p" "s" "r" []).2.get_summary).interaction_count = 1 ∧
    ((activeCollector.end_interaction none 3 "ts" "p" "s" "r" []).2.get_summary).avg_tokens = some (3 : ℚ) ∧
    ({1, 3} : Finset ℕ) ∈ ((activeCollector.end_interaction none 3 "ts" "p" "s" "r" []).2.get_summary).recent_layer_patterns := by
  have h := c6_finalize_then_summary activeCollector sampleAccum 3 "ts" "p" "s" "r" [] 3
    rfl rfl (by decide) (by decide)
  exact ⟨h.2.1, h.2.2.1, h.2.2.2⟩

/-- C7: with no active accumulator, `log_layer_access` and `log_completion`
change nothing, `end_interaction` writes nothing and returns, and none of
these calls affects a subsequent start/finalize cycle. -/
theorem c7_noop_without_accumulator (c : MetricsCollector) (layer : ℕ)
    (context_type : String) (d : ℚ) (pt ct : ℕ)
    (sc sc2 : Option MetricsCollector.StoreFail) (tEnd t2 t3 : ℚ)
    (ts ts2 prompt solution reflection p2 s2 r2 : String) (la la2 : List ℕ)
    (hnone : c.current_interaction = none) :
    c.log_layer_access layer = c ∧
    c.log_completion context_type d pt ct = c ∧
    c.end_interaction sc tEnd ts prompt solution reflection la = (.ok (), c) ∧
    (((c.log_layer_access layer).log_completion context_type d pt ct).start_interaction t2).end_interaction sc2 t3 ts2 p2 s2 r2 la2
      = (c.start_interaction t2).end_interaction sc2 t3 ts2 p2 s2 r2 la2 := by
  have h1 : c.log_layer_access layer = c := by
    unfold MetricsCollector.log_layer_access
    rw [hnone]
  have h2 : c.log_completion context_type d pt ct = c := by
    unfold MetricsCollector.log_completion
    rw [hnone]
  refine ⟨h1, h2, ?_, by rw [h1, h2]⟩
  unfold MetricsCollector.end_interaction
  rw [hnone]

theorem c7_witness :
    sampleCollector.log_layer_access 2 = sampleCollector ∧
    sampleCollector.log_completion "reflection" 1 5 6 = sampleCollector ∧
    sampleCollector.end_interaction none 3 "ts" "p" "s" "r" [] = (.ok (), sampleCollector) ∧
    (((sampleCollector.log_layer_access 2).log_completion "reflection" 1 5 6).start_interaction 0).end_interaction none 3 "ts" "p" "s" "r" []
      = (sampleCollector.start_interaction 0).end_interaction none 3 "ts" "p" "s" "r" [] :=
  c7_noop_without_accumulator sampleCollector 2 "reflection" 1 5 6 none none 3 0 3
    "ts" "ts" "p" "s" "r" "p" "s" "r" [] [] rfl

/-- C10: the `layers_accessed` argument of `end_interaction` has no effect:
two calls identical except for that argument return identical results, and
the persisted row's layers_accessed column is the accumulator's own
layer-access set. -/
theorem c10_layers_argument_ignored (c : MetricsCollector)
    (sc : Option MetricsCollector.StoreFail) (tEnd : ℚ)
    (ts prompt solution reflection : String) (la1 la2 : List ℕ) (acc : Accum)
    (hacc : c.current_interaction = some acc) :
    c.end_interaction sc tEnd ts prompt solution reflection la1
      = c.end_interaction sc tEnd ts prompt solution reflection la2 ∧
    (c.end_interaction none tEnd ts prompt solution reflection la1).2.db.interactions
      = c.db.interactions ++ [mkInteractionRow c acc tEnd ts prompt solution reflection] ∧
    (mkInteractionRow c acc tEnd ts prompt solution reflection).layers_accessed
      = acc.layer_access := by
  refine ⟨rfl, ?_, rfl⟩
  rw [MetricsCollector.end_interaction_ok_shape c acc tEnd ts prompt solution reflection la1 hacc]

/-- C1 as written is false on the code: when the initial stage succeeds with
EMPTY content and the reflection stage errors, stage 3 is (correctly) not
invoked, but stage 1's output is NOT returned unmodified — the empty initial
result is replaced by the fixed error placeholder. -/
theorem c1_counterexample :
    stageInvoked (run_agent_with_reflection emptyInitialAgent none "q") "reflection" ∧
    str_startswith (run_agent_with_reflection emptyInitialAgent none "q").reflection "Error" = true ∧
    ¬ stageInvoked (run_agent_with_reflection emptyInitialAgent none "q") "refinement" ∧
    (run_agent_with_reflection emptyInitialAgent none "q").output.1
      ≠ (run_agent_with_reflection emptyInitialAgent none "q").initial_solution := by
  decide

/-- C1 (amended): with the system prompt present, the reflection stage is
invoked iff the initial result does not begin with "Error"; the refinement
stage is invoked iff the reflection stage was invoked and its result does not
begin with "Error"; when stage 1 errors, stages 2 and 3 are never invoked;
when stage 2 errors, stage 3 is never invoked and stage 1's output is
returned unmodified provided it is non-empty (an empty stage-1 output is
replaced by the fixed error placeholder). -/
theorem c1_stage_gating (a : CodingAgent) (m0 : Option MetricsCollector)
    (user_query : String)
    (hsys : a.files "prompts/system_prompt.md" ≠ "") :
    stageInvoked (run_agent_with_reflection a m0 user_query) "initial_solution" ∧
    (stageInvoked (run_agent_with_reflection a m0 user_query) "reflection"
      ↔ str_startswith (run_agent_with_reflection a m0 user_query).initial_solution "Error" = false) ∧
    (stageInvoked (run_agent_with_reflection a m0 user_query) "refinement"
      ↔ (stageInvoked (run_agent_with_reflection a m0 user_query) "reflection" ∧
         str_startswith (run_agent_with_reflection a m0 user_query).reflection "Error" = false)) ∧
    (str_startswith (run_agent_with_reflection a m0 user_query).initial_solution "Error" = true →
      ¬ stageInvoked (run_agent_with_reflection a m0 user_query) "reflection" ∧
      ¬ stageInvoked (run_agent_with_reflection a m0 user_query) "refinement") ∧
    (str_startswith (run_agent_with_reflection a m0 user_query).reflection "Error" = true →
      stageInvoked (run_agent_with_reflection a m0 user_query) "reflection" →
      ¬ stageInvoked (run_agent_with_reflection a m0 user_query) "refinement" ∧
      ((run_agent_with_reflection a m0 user_query).initial_solution ≠ "" →
        (run_agent_with_reflection a m0 user_query).output.1
          = (run_agent_with_reflection a m0 user_query).initial_solution)) := by
  cases hg : get_initial_solution a (m0.map fun m => m.start_interaction a.startTime)
      user_query with
  | error e =>
      exact absurd (get_initial_solution_error a _ user_query e hg).1 hsys
  | ok st1 =>
      obtain ⟨gmev, hev, hno⟩ := get_initial_solution_ok_events a _ user_query st1 hg
      by_cases hI : str_startswith st1.1 "Error" = true
      · rw [run_initial_errored a m0 user_query st1 hg hI]
        have hrefl0 : str_startswith "" "Error" = false := by decide
        refine ⟨?_, ?_, ?_, fun _ => ⟨?_, ?_⟩, ?_⟩
        · simp [stageInvoked, hev]
        · simp [stageInvoked, hev, hI, hno "reflection"]
        · simp [stageInvoked, hev, hno "refinement", hno "reflection", hrefl0]
        · simp [stageInvoked, hev, hno "reflection"]
        · simp [stageInvoked, hev, hno "refinement"]
        · intro hfalse
          rw [finishRun_reflection] at hfalse
          exact absurd hfalse (by decide)
      · have hI' : str_startswith st1.1 "Error" = false := Bool.eq_false_iff.mpr hI
        by_cases hR : str_startswith (get_reflection a st1.2.1 st1.1).1 "Error" = true
        · rw [run_reflection_errored a m0 user_query st1 hg hI' hR]
          refine ⟨?_, ?_, ?_, ?_, fun _ _ => ⟨?_, ?_⟩⟩
          · simp [stageInvoked, hev, get_reflection_events]
          · simp [stageInvoked, hev, hI', get_reflection_events, hno "reflection"]
          · simp [stageInvoked, hev, hR, get_reflection_events, hno "refinement"]
          · intro hcontra
            rw [finishRun_initial] at hcontra
            exact absurd hcontra hI
          · simp [stageInvoked, hev, get_reflection_events, hno "refinement"]
          · intro hne
            rw [finishRun_initial] at hne
            simp [strOr, hne]
        · have hR' : str_startswith (get_reflection a st1.2.1 st1.1).1 "Error" = false :=
            Bool.eq_false_iff.mpr hR
          rw [run_all_stages a m0 user_query st1 hg hI' hR']
          refine ⟨?_, ?_, ?_, ?_, ?_⟩
          · simp [stageInvoked, hev, get_reflection_events, refine_solution_events]
          · simp [stageInvoked, hev, hI', get_reflection_events, refine_solution_events,
              hno "reflection"]
          · simp [stageInvoked, hev, hR', get_reflection_events, refine_solution_events,
              hno "reflection", hno "refinement"]
          · intro hcontra
            rw [finishRun_initial] at hcontra
            exact absurd hcontra hI
          · intro hcontra
            rw [finishRun_reflection] at hcontra
            exact absurd hcontra hR

theorem c1_witness :
    stageInvoked (run_agent_with_reflection sampleAgent (some sampleCollector) "q")
      "initial_solution" :=
  (c1_stage_gating sampleAgent (some sampleCollector) "q" (by decide)).1

/-- C2: for every query (and every filesystem, service behaviour and collector
state) `run_agent_with_reflection` returns a three-tuple whose components are
all non-empty: a real result, a placeholder, or an "Error"-prefixed sentinel. -/
theorem c2_output_components_nonempty (a : CodingAgent)
    (m0 : Option MetricsCollector) (user_query : String) :
    (run_agent_with_reflection a m0 user_query).output.1 ≠ "" ∧
    (run_agent_with_reflection a m0 user_query).output.2.1 ≠ "" ∧
    (run_agent_with_reflection a m0 user_query).output.2.2 ≠ "" := by
  cases hg : get_initial_solution a (m0.map fun m => m.start_interaction a.startTime)
      user_query with
  | error e =>
      rw [run_after_init_error a m0 user_query e hg]
      refine ⟨?_, ?_, ?_⟩
      · show strOr "" ("Error: " ++ e) ≠ ""
        simp only [strOr, if_pos rfl]
        exact string_append_ne_empty "Error: " e (by decide)
      · show strOr "" "Reflection failed." ≠ ""
        decide
      · show strOr "" "No improved solution available." ≠ ""
        decide
  | ok st1 =>
      by_cases hI : str_startswith st1.1 "Error" = true
      · rw [run_initial_errored a m0 user_query st1 hg hI]
        exact finishRun_output_nonempty a _ _ _ _ _ _
      · have hI' : str_startswith st1.1 "Error" = false := Bool.eq_false_iff.mpr hI
        by_cases hR : str_startswith (get_reflection a st1.2.1 st1.1).1 "Error" = true
        · rw [run_reflection_errored a m0 user_query st1 hg hI' hR]
          exact finishRun_output_nonempty a _ _ _ _ _ _
        · have hR' : str_startswith (get_reflection a st1.2.1 st1.1).1 "Error" = false :=
            Bool.eq_false_iff.mpr hR
          rw [run_all_stages a m0 user_query st1 hg hI' hR']
          exact finishRun_output_nonempty a _ _ _ _ _ _

/-- C5 as written is false on the code: with the system prompt missing, the
pipeline does not abort — `run_agent_with_reflection` catches the
configuration error and converts it into an ordinary "Error"-sentinel first
field of the returned three-tuple. -/
theorem c5_counterexample :
    str_startswith (run_agent_with_reflection noPromptAgent none "q").output.1 "Error" = true ∧
    (run_agent_with_reflection noPromptAgent none "q").output.1
      = "Error: System prompt file not found" := by
  decide

/-- C5 (amended): when the system prompt is missing or empty at stage-1 entry,
`_get_initial_solution` raises the configuration error before any completion
call is placed, but the top-level handler catches it: the run returns the
tuple ("Error: System prompt file not found", "Reflection failed.",
"No improved solution available."), makes no service call, and leaves the
accumulator started but unfinalized. -/
theorem c5_missing_system_prompt (a : CodingAgent) (m0 : Option MetricsCollector)
    (user_query : String)
    (hmiss : a.files "prompts/system_prompt.md" = "") :
    (run_agent_with_reflection a m0 user_query).output
      = ("Error: System prompt file not found", "Reflection failed.",
         "No improved solution available.") ∧
    (run_agent_with_reflection a m0 user_query).events = [] ∧
    (run_agent_with_reflection a m0 user_query).metricsOut
      = m0.map (fun m => m.start_interaction a.startTime) := by
  have hg : get_initial_solution a (m0.map fun m => m.start_interaction a.startTime)
      user_query = .error "System prompt file not found" := by
    unfold get_initial_solution load_text_file
    dsimp only
    rw [if_pos hmiss]
  rw [run_after_init_error a m0 user_query "System prompt file not found" hg]
  refine ⟨?_, rfl, rfl⟩
  show (strOr "" ("Error: " ++ "System prompt file not found"),
        strOr "" "Reflection failed.", strOr "" "No improved solution available.")
      = ("Error: System prompt file not found", "Reflection failed.",
         "No improved solution available.")
  decide

theorem c5_witness :
    (run_agent_with_reflection noPromptAgent none "q").events = [] :=
  (c5_missing_system_prompt noPromptAgent none "q" rfl).2.1

theorem c10_witness :
    activeCollector.end_interaction none 3 "ts" "p" "s" "r" [1, 2]
      = activeCollector.end_interaction none 3 "ts" "p" "s" "r" [9] ∧
    (activeCollector.end_interaction none 3 "ts" "p" "s" "r" [1, 2]).2.db.interactions
      = activeCollector.db.interactions ++ [mkInteractionRow activeCollector sampleAccum 3 "ts" "p" "s" "r"] ∧
    (mkInteractionRow activeCollector sampleAccum 3 "ts" "p" "s" "r").layers_accessed
      = sampleAccum.layer_access :=
  c10_layers_argument_ignored activeCollector none 3 "ts" "p" "s" "r" [1, 2] [9]
    sampleAccum rfl

end ReflectionAgent
